import Mathlib

/-
Verification of the error-normalization layer of the shippa repository
(src/lib/aiError.ts): a classifier mapping arbitrary thrown JavaScript
values to a stable (status, code, name, message) record, a response
reporter, and a friendly-message mapper for streamed output.

The embedding models JavaScript values shallowly: primitives, plain
objects, and objects that are instances of the AI SDK error classes the
code tests with instanceof. Every class the source imports from the "ai"
package extends AISDKError, so an instance tag doubles as the witness
for the final instanceof AISDKError test.
-/

namespace Shippa

/-- The SDK error classes the source distinguishes with instanceof checks.
All of them extend AISDKError in the upstream library; otherAISDKError
stands for any further AISDKError subclass not tested by instanceof. -/
inductive SDKClass where
  | loadAPIKeyError
  | noSuchModelError
  | unsupportedFunctionalityError
  | typeValidationError
  | invalidPromptError
  | emptyResponseBodyError
  | invalidResponseDataError
  | jsonParseError
  | noContentGeneratedError
  | apiCallError
  | otherAISDKError
deriving DecidableEq, Repr

/-- A JavaScript runtime value as the classifier observes it: null,
undefined, booleans, numbers, strings, and objects. An object carries an
optional SDK class tag (present when the value is an instance of an AI
SDK error class) and its own enumerable fields. -/
inductive JSValue where
  | null
  | undef
  | bool (b : Bool)
  | num (n : Int)
  | str (s : String)
  | obj (cls : Option SDKClass) (fields : List (String × JSValue))

/-- The NormalizedAIError record type from the source. The optional
retryAfterMs member is modelled as an Option that a construction site
must populate explicitly, mirroring presence or absence of the field in
the TypeScript object literals. -/
structure NormalizedAIError where
  status : Int
  code : String
  name : String
  message : String
  retryAfterMs : Option Int
deriving DecidableEq, Repr

/-- Property access on a JavaScript value: a field of an object when
present, none for primitives, null, undefined, or a missing key. This
models both the optional-chaining reads and the hasProp plus typeof
pattern of the source, since both demand an object with the key. -/
def getProp : JSValue → String → Option JSValue
  | .obj _ fields, key => fields.lookup key
  | _, _ => none

/-- The getString helper of the source: the value itself when it is a
string, the fallback otherwise (also when the property is absent). -/
def getStr : Option JSValue → String → String
  | some (.str s), _ => s
  | _, fallback => fallback

/-- Numeric read of a property, combining the hasProp test and the
typeof number test the source performs before using such a field. -/
def getNumProp (error : JSValue) (key : String) : Option Int :=
  match getProp error key with
  | some (.num n) => some n
  | _ => none

/-- The readStatusFrom helper of the source: a numeric status field,
else a numeric statusCode field, else a numeric response.status nested
field, else undefined. -/
def readStatusFrom (error : JSValue) : Option Int :=
  match getProp error "status" with
  | some (.num n) => some n
  | _ =>
    match getProp error "statusCode" with
    | some (.num n) => some n
    | _ =>
      match getProp error "response" with
      | some r =>
        match getProp r "status" with
        | some (.num n) => some n
        | _ => none
      | _ => none

/-- The instanceof test against one of the imported SDK classes: true
exactly when the value is an object constructed by that class. -/
def instanceOf (error : JSValue) (c : SDKClass) : Bool :=
  match error with
  | .obj (some c2) _ => c2 = c
  | _ => false

/-- The instanceof AISDKError test: every SDKClass extends AISDKError
upstream, so any tagged object instance passes. -/
def isAISDKError (error : JSValue) : Bool :=
  match error with
  | .obj (some _) _ => true
  | _ => false

/-- The hasName helper of the source: the name property read as a string
with empty fallback, membership in the given name list. -/
def hasName (error : JSValue) (names : List String) : Bool :=
  names.contains (getStr (getProp error "name") "")

/-- The defensively extracted name: the name property when it is a
string, the default Error otherwise. -/
def errName (error : JSValue) : String :=
  getStr (getProp error "name") "Error"

/-- The defensively extracted message: the message property when it is a
string, the default otherwise. -/
def errMessage (error : JSValue) : String :=
  getStr (getProp error "message") "Unexpected error"

/-- The JavaScript toLowerCase operation, character by character. -/
def jsToLower (s : String) : String := ⟨s.data.map Char.toLower⟩

/-- The JavaScript startsWith test: the second string is a prefix of
the first. -/
def strStarts (s p : String) : Bool := p.data.isPrefixOf s.data

/-- The nested conditional of the APICallError branch mapping an
extracted status to a taxonomy code. -/
def apiCallCode (status : Int) : String :=
  if status = 401 then "auth.unauthorized"
  else if status = 403 then "auth.forbidden"
  else if status = 404 then "provider.not_found"
  else if status = 409 then "provider.conflict"
  else if status = 422 then "provider.unprocessable"
  else if status = 429 then "provider.rate_limited"
  else if status ≥ 500 then "provider.error"
  else "provider.request_failed"

/-- The guard of the generic fetch/node network-error branch: a string
code property equal to one of the three recognized network codes. -/
def matchesNetworkCode (error : JSValue) : Bool :=
  match getProp error "code" with
  | some (.str c) => c = "ETIMEDOUT" || c = "ECONNRESET" || c = "ENOTFOUND"
  | _ => false

/-- The string code property with empty fallback, used to build the
network.<lowercased code> taxonomy code once the guard matched. -/
def stringCodeOf (error : JSValue) : String :=
  match getProp error "code" with
  | some (.str c) => c
  | _ => ""

/-- The normalizeAIError classifier of the source, branch for branch in
source order: instanceof checks for the exported SDK classes, name
string checks for the unexported ones, the network code guard, the
instanceof AISDKError catch-all, and the unknown fallback. -/
def normalizeAIError (error : JSValue) : NormalizedAIError :=
  if instanceOf error .loadAPIKeyError then
    ⟨401, "auth.no_api_key", errName error, "Missing or invalid API key", none⟩
  else if instanceOf error .noSuchModelError then
    ⟨400, "model.not_found", errName error, errMessage error, none⟩
  else if instanceOf error .unsupportedFunctionalityError then
    ⟨400, "model.unsupported_functionality", errName error, errMessage error, none⟩
  else if instanceOf error .typeValidationError || instanceOf error .invalidPromptError then
    ⟨400, "input.invalid", errName error, errMessage error, none⟩
  else if instanceOf error .emptyResponseBodyError
      || instanceOf error .invalidResponseDataError
      || instanceOf error .jsonParseError then
    ⟨502, "provider.invalid_response", errName error, errMessage error, none⟩
  else if instanceOf error .noContentGeneratedError then
    ⟨502, "provider.no_output", errName error, errMessage error, none⟩
  else if instanceOf error .apiCallError then
    ⟨(readStatusFrom error).getD 502,
      apiCallCode ((readStatusFrom error).getD 502),
      errName error, errMessage error, none⟩
  else if hasName error ["InvalidToolInputError", "NoSuchToolError", "ToolCallRepairError"] then
    ⟨400, "tool.invalid", errName error, errMessage error, none⟩
  else if hasName error ["InvalidArgumentError", "InvalidDataContentError",
      "InvalidMessageRoleError", "MessageConversionError"] then
    ⟨400, "input.invalid", errName error, errMessage error, none⟩
  else if hasName error ["InvalidStreamPartError"] then
    ⟨502, "stream.invalid_part", errName error, errMessage error, none⟩
  else if hasName error ["UnsupportedModelVersionError", "NoSuchProviderError"] then
    ⟨400, "model.unsupported", errName error, errMessage error, none⟩
  else if hasName error ["DownloadError", "MCPClientError"] then
    ⟨502, "provider.network_error", errName error, errMessage error, none⟩
  else if hasName error ["RetryError"] then
    ⟨(readStatusFrom error).getD 503, "provider.retry", errName error, errMessage error, none⟩
  else if matchesNetworkCode error then
    ⟨502, "network." ++ jsToLower (stringCodeOf error), errName error, errMessage error, none⟩
  else if isAISDKError error then
    ⟨(readStatusFrom error).getD 500, "ai_sdk.error", errName error, errMessage error, none⟩
  else
    ⟨500, "unknown", errName error, errMessage error, none⟩

/-- The decision chain of getStreamFriendlyMessage over the normalized
code: a prefix or exact match, first match wins, with a generic final
fallback. -/
def friendlyFromCode (code : String) : String :=
  if strStarts code "auth." then
    "Authentication failed (check API key)."
  else if code = "provider.rate_limited" then
    "Rate limited. Please wait and try again."
  else if strStarts code "input." then
    "Invalid input. Please adjust your request and try again."
  else if strStarts code "tool." then
    "A tool call failed. Please try again."
  else if strStarts code "model." then
    "Model configuration issue. Please try again later."
  else if strStarts code "network." then
    "Network error. Please retry."
  else if code = "provider.error" then
    "The model provider had an error. Please retry."
  else
    "Something went wrong. Please try again."

/-- The getStreamFriendlyMessage mapper of the source: normalize the
error, then pick the friendly text from the normalized code. -/
def getStreamFriendlyMessage (error : JSValue) : String :=
  friendlyFromCode (normalizeAIError error).code

/-- The JSON body shape written by the reporter, kept structured rather
than serialized: the error object with code, name, and message. -/
structure ErrorPayload where
  code : String
  name : String
  message : String
deriving Repr

/-- The structured log record emitted by the reporter: the normalized
fields plus the raw stack and cause properties of the original value. -/
structure LogEntry where
  name : String
  code : String
  status : Int
  message : String
  stack : Option JSValue
  cause : Option JSValue

/-- A response transport with every possible behavior of its two write
operations: the status plus json write, and the status plus raw end
write, each either returning normally or throwing. -/
structure Transport where
  jsonResult : Except Unit Unit
  endResult : Except Unit Unit

/-- An observable action of the reporter: the log emission, or an
attempted write (json or raw) together with whether the transport let
it succeed. -/
inductive Event where
  | logged (entry : LogEntry)
  | jsonAttempt (status : Int) (payload : ErrorPayload) (succeeded : Bool)
  | rawAttempt (status : Int) (payload : ErrorPayload) (succeeded : Bool)

/-- True exactly for the log event. -/
def Event.isLogged : Event → Bool
  | .logged _ => true
  | _ => false

/-- True exactly for an attempted json write. -/
def Event.isJsonAttempt : Event → Bool
  | .jsonAttempt _ _ _ => true
  | _ => false

/-- True exactly for an attempted raw fallback write. -/
def Event.isRawAttempt : Event → Bool
  | .rawAttempt _ _ _ => true
  | _ => false

/-- The handleAIError reporter of the source: normalize, emit the log
record, then try the json response write; on a throw, try one raw end
write of the payload inside the catch; a throw there is swallowed by
the inner catch. The result is the trace of actions paired with the
exception the call itself propagates. -/
def handleAIError (res : Transport) (error : JSValue) : List Event × Except Unit Unit :=
  let n := normalizeAIError error
  let entry : LogEntry :=
    ⟨n.name, n.code, n.status, n.message, getProp error "stack", getProp error "cause"⟩
  let payload : ErrorPayload := ⟨n.code, n.name, n.message⟩
  match res.jsonResult with
  | .ok _ => ([.logged entry, .jsonAttempt n.status payload true], .ok ())
  | .error _ =>
    match res.endResult with
    | .ok _ =>
      ([.logged entry, .jsonAttempt n.status payload false,
        .rawAttempt n.status payload true], .ok ())
    | .error _ =>
      ([.logged entry, .jsonAttempt n.status payload false,
        .rawAttempt n.status payload false], .ok ())

/-- The fixed set of HTTP status codes the spec names for the status
member of a normalized error. -/
def statusFixedSet : List Int := [400, 401, 403, 404, 409, 422, 429, 500, 502, 503]

/-- No classification rule of normalizeAIError applies to the value:
it is not an instance of any AI SDK error class (which also rules out
every instanceof branch), its name matches none of the name lists, and
it carries no recognized network code. -/
def matchesNoRule (error : JSValue) : Bool :=
  !isAISDKError error
  && !hasName error ["InvalidToolInputError", "NoSuchToolError", "ToolCallRepairError"]
  && !hasName error ["InvalidArgumentError", "InvalidDataContentError",
        "InvalidMessageRoleError", "MessageConversionError"]
  && !hasName error ["InvalidStreamPartError"]
  && !hasName error ["UnsupportedModelVersionError", "NoSuchProviderError"]
  && !hasName error ["DownloadError", "MCPClientError"]
  && !hasName error ["RetryError"]
  && !matchesNetworkCode error

/-- Follows the wording of the spec for status extraction: read, in
order of priority, a numeric status field, else a numeric statusCode
field, else a numeric response.status nested field. Stated separately
so that the source helper readStatusFrom can be proved equal to it. -/
def statusPriorityRead (error : JSValue) : Option Int :=
  match getNumProp error "status" with
  | some n => some n
  | none =>
    match getNumProp error "statusCode" with
    | some n => some n
    | none =>
      match getProp error "response" with
      | some r => getNumProp r "status"
      | none => none

/-- The fixed set of strings getStreamFriendlyMessage can return. -/
def friendlyMessages : List String :=
  ["Authentication failed (check API key).",
   "Rate limited. Please wait and try again.",
   "Invalid input. Please adjust your request and try again.",
   "A tool call failed. Please try again.",
   "Model configuration issue. Please try again later.",
   "Network error. Please retry.",
   "The model provider had an error. Please retry.",
   "Something went wrong. Please try again."]

end Shippa

namespace Shippa

/-- A Bool instanceof test succeeding implies the value is an AISDKError
instance: every modelled SDK class extends AISDKError. Contrapositive
form, convenient for rewriting all instanceof tests to false at once. -/
theorem sdk_no_instance {e : JSValue} (h : isAISDKError e = false) (c : SDKClass) :
    instanceOf e c = false := by
  rcases e with _ | _ | b | n | s | ⟨cls, fs⟩ <;> try rfl
  rcases cls with _ | t
  · rfl
  · exact Bool.noConfusion h

/-- Case eliminator for normalizeAIError: to prove a property of the
classifier result it suffices to prove it for each branch result under
that branch condition together with the negations of all earlier
conditions, mirroring first-match-wins rule order. -/
theorem normalizeAIError_cases (e : JSValue) (motive : NormalizedAIError → Prop)
    (h1 : instanceOf e SDKClass.loadAPIKeyError = true → motive (NormalizedAIError.mk 401 "auth.no_api_key" (errName e) "Missing or invalid API key" none))
    (h2 : instanceOf e SDKClass.loadAPIKeyError = false → instanceOf e SDKClass.noSuchModelError = true → motive (NormalizedAIError.mk 400 "model.not_found" (errName e) (errMessage e) none))
    (h3 : instanceOf e SDKClass.loadAPIKeyError = false → instanceOf e SDKClass.noSuchModelError = false → instanceOf e SDKClass.unsupportedFunctionalityError = true → motive (NormalizedAIError.mk 400 "model.unsupported_functionality" (errName e) (errMessage e) none))
    (h4 : instanceOf e SDKClass.loadAPIKeyError = false → instanceOf e SDKClass.noSuchModelError = false → instanceOf e SDKClass.unsupportedFunctionalityError = false → (instanceOf e SDKClass.typeValidationError || instanceOf e SDKClass.invalidPromptError) = true → motive (NormalizedAIError.mk 400 "input.invalid" (errName e) (errMessage e) none))
    (h5 : instanceOf e SDKClass.loadAPIKeyError = false → instanceOf e SDKClass.noSuchModelError = false → instanceOf e SDKClass.unsupportedFunctionalityError = false → (instanceOf e SDKClass.typeValidationError || instanceOf e SDKClass.invalidPromptError) = false → (instanceOf e SDKClass.emptyResponseBodyError || instanceOf e SDKClass.invalidResponseDataError || instanceOf e SDKClass.jsonParseError) = true → motive (NormalizedAIError.mk 502 "provider.invalid_response" (errName e) (errMessage e) none))
    (h6 : instanceOf e SDKClass.loadAPIKeyError = false → instanceOf e SDKClass.noSuchModelError = false → instanceOf e SDKClass.unsupportedFunctionalityError = false → (instanceOf e SDKClass.typeValidationError || instanceOf e SDKClass.invalidPromptError) = false → (instanceOf e SDKClass.emptyResponseBodyError || instanceOf e SDKClass.invalidResponseDataError || instanceOf e SDKClass.jsonParseError) = false → instanceOf e SDKClass.noContentGeneratedError = true → motive (NormalizedAIError.mk 502 "provider.no_output" (errName e) (errMessage e) none))
    (h7 : instanceOf e SDKClass.loadAPIKeyError = false → instanceOf e SDKClass.noSuchModelError = false → instanceOf e SDKClass.unsupportedFunctionalityError = false → (instanceOf e SDKClass.typeValidationError || instanceOf e SDKClass.invalidPromptError) = false → (instanceOf e SDKClass.emptyResponseBodyError || instanceOf e SDKClass.invalidResponseDataError || instanceOf e SDKClass.jsonParseError) = false → instanceOf e SDKClass.noContentGeneratedError = false → instanceOf e SDKClass.apiCallError = true → motive (NormalizedAIError.mk ((readStatusFrom e).getD 502) (apiCallCode ((readStatusFrom e).getD 502)) (errName e) (errMessage e) none))
    (h8 : instanceOf e SDKClass.loadAPIKeyError = false → instanceOf e SDKClass.noSuchModelError = false → instanceOf e SDKClass.unsupportedFunctionalityError = false → (instanceOf e SDKClass.typeValidationError || instanceOf e SDKClass.invalidPromptError) = false → (instanceOf e SDKClass.emptyResponseBodyError || instanceOf e SDKClass.invalidResponseDataError || instanceOf e SDKClass.jsonParseError) = false → instanceOf e SDKClass.noContentGeneratedError = false → instanceOf e SDKClass.apiCallError = false → hasName e ["InvalidToolInputError", "NoSuchToolError", "ToolCallRepairError"] = true → motive (NormalizedAIError.mk 400 "tool.invalid" (errName e) (errMessage e) none))
    (h9 : instanceOf e SDKClass.loadAPIKeyError = false → instanceOf e SDKClass.noSuchModelError = false → instanceOf e SDKClass.unsupportedFunctionalityError = false → (instanceOf e SDKClass.typeValidationError || instanceOf e SDKClass.invalidPromptError) = false → (instanceOf e SDKClass.emptyResponseBodyError || instanceOf e SDKClass.invalidResponseDataError || instanceOf e SDKClass.jsonParseError) = false → instanceOf e SDKClass.noContentGeneratedError = false → instanceOf e SDKClass.apiCallError = false → hasName e ["InvalidToolInputError", "NoSuchToolError", "ToolCallRepairError"] = false → hasName e ["InvalidArgumentError", "InvalidDataContentError", "InvalidMessageRoleError", "MessageConversionError"] = true → motive (NormalizedAIError.mk 400 "input.invalid" (errName e) (errMessage e) none))
    (h10 : instanceOf e SDKClass.loadAPIKeyError = false → instanceOf e SDKClass.noSuchModelError = false → instanceOf e SDKClass.unsupportedFunctionalityError = false → (instanceOf e SDKClass.typeValidationError || instanceOf e SDKClass.invalidPromptError) = false → (instanceOf e SDKClass.emptyResponseBodyError || instanceOf e SDKClass.invalidResponseDataError || instanceOf e SDKClass.jsonParseError) = false → instanceOf e SDKClass.noContentGeneratedError = false → instanceOf e SDKClass.apiCallError = false → hasName e ["InvalidToolInputError", "NoSuchToolError", "ToolCallRepairError"] = false → hasName e ["InvalidArgumentError", "InvalidDataContentError", "InvalidMessageRoleError", "MessageConversionError"] = false → hasName e ["InvalidStreamPartError"] = true → motive (NormalizedAIError.mk 502 "stream.invalid_part" (errName e) (errMessage e) none))
    (h11 : instanceOf e SDKClass.loadAPIKeyError = false → instanceOf e SDKClass.noSuchModelError = false → instanceOf e SDKClass.unsupportedFunctionalityError = false → (instanceOf e SDKClass.typeValidationError || instanceOf e SDKClass.invalidPromptError) = false → (instanceOf e SDKClass.emptyResponseBodyError || instanceOf e SDKClass.invalidResponseDataError || instanceOf e SDKClass.jsonParseError) = false → instanceOf e SDKClass.noContentGeneratedError = false → instanceOf e SDKClass.apiCallError = false → hasName e ["InvalidToolInputError", "NoSuchToolError", "ToolCallRepairError"] = false → hasName e ["InvalidArgumentError", "InvalidDataContentError", "InvalidMessageRoleError", "MessageConversionError"] = false → hasName e ["InvalidStreamPartError"] = false → hasName e ["UnsupportedModelVersionError", "NoSuchProviderError"] = true → motive (NormalizedAIError.mk 400 "model.unsupported" (errName e) (errMessage e) none))
    (h12 : instanceOf e SDKClass.loadAPIKeyError = false → instanceOf e SDKClass.noSuchModelError = false → instanceOf e SDKClass.unsupportedFunctionalityError = false → (instanceOf e SDKClass.typeValidationError || instanceOf e SDKClass.invalidPromptError) = false → (instanceOf e SDKClass.emptyResponseBodyError || instanceOf e SDKClass.invalidResponseDataError || instanceOf e SDKClass.jsonParseError) = false → instanceOf e SDKClass.noContentGeneratedError = false → instanceOf e SDKClass.apiCallError = false → hasName e ["InvalidToolInputError", "NoSuchToolError", "ToolCallRepairError"] = false → hasName e ["InvalidArgumentError", "InvalidDataContentError", "InvalidMessageRoleError", "MessageConversionError"] = false → hasName e ["InvalidStreamPartError"] = false → hasName e ["UnsupportedModelVersionError", "NoSuchProviderError"] = false → hasName e ["DownloadError", "MCPClientError"] = true → motive (NormalizedAIError.mk 502 "provider.network_error" (errName e) (errMessage e) none))
    (h13 : instanceOf e SDKClass.loadAPIKeyError = false → instanceOf e SDKClass.noSuchModelError = false → instanceOf e SDKClass.unsupportedFunctionalityError = false → (instanceOf e SDKClass.typeValidationError || instanceOf e SDKClass.invalidPromptError) = false → (instanceOf e SDKClass.emptyResponseBodyError || instanceOf e SDKClass.invalidResponseDataError || instanceOf e SDKClass.jsonParseError) = false → instanceOf e SDKClass.noContentGeneratedError = false → instanceOf e SDKClass.apiCallError = false → hasName e ["InvalidToolInputError", "NoSuchToolError", "ToolCallRepairError"] = false → hasName e ["InvalidArgumentError", "InvalidDataContentError", "InvalidMessageRoleError", "MessageConversionError"] = false → hasName e ["InvalidStreamPartError"] = false → hasName e ["UnsupportedModelVersionError", "NoSuchProviderError"] = false → hasName e ["DownloadError", "MCPClientError"] = false → hasName e ["RetryError"] = true → motive (NormalizedAIError.mk ((readStatusFrom e).getD 503) "provider.retry" (errName e) (errMessage e) none))
    (h14 : instanceOf e SDKClass.loadAPIKeyError = false → instanceOf e SDKClass.noSuchModelError = false → instanceOf e SDKClass.unsupportedFunctionalityError = false → (instanceOf e SDKClass.typeValidationError || instanceOf e SDKClass.invalidPromptError) = false → (instanceOf e SDKClass.emptyResponseBodyError || instanceOf e SDKClass.invalidResponseDataError || instanceOf e SDKClass.jsonParseError) = false → instanceOf e SDKClass.noContentGeneratedError = false → instanceOf e SDKClass.apiCallError = false → hasName e ["InvalidToolInputError", "NoSuchToolError", "ToolCallRepairError"] = false → hasName e ["InvalidArgumentError", "InvalidDataContentError", "InvalidMessageRoleError", "MessageConversionError"] = false → hasName e ["InvalidStreamPartError"] = false → hasName e ["UnsupportedModelVersionError", "NoSuchProviderError"] = false → hasName e ["DownloadError", "MCPClientError"] = false → hasName e ["RetryError"] = false → matchesNetworkCode e = true → motive (NormalizedAIError.mk 502 ("network." ++ jsToLower (stringCodeOf e)) (errName e) (errMessage e) none))
    (h15 : instanceOf e SDKClass.loadAPIKeyError = false → instanceOf e SDKClass.noSuchModelError = false → instanceOf e SDKClass.unsupportedFunctionalityError = false → (instanceOf e SDKClass.typeValidationError || instanceOf e SDKClass.invalidPromptError) = false → (instanceOf e SDKClass.emptyResponseBodyError || instanceOf e SDKClass.invalidResponseDataError || instanceOf e SDKClass.jsonParseError) = false → instanceOf e SDKClass.noContentGeneratedError = false → instanceOf e SDKClass.apiCallError = false → hasName e ["InvalidToolInputError", "NoSuchToolError", "ToolCallRepairError"] = false → hasName e ["InvalidArgumentError", "InvalidDataContentError", "InvalidMessageRoleError", "MessageConversionError"] = false → hasName e ["InvalidStreamPartError"] = false → hasName e ["UnsupportedModelVersionError", "NoSuchProviderError"] = false → hasName e ["DownloadError", "MCPClientError"] = false → hasName e ["RetryError"] = false → matchesNetworkCode e = false → isAISDKError e = true → motive (NormalizedAIError.mk ((readStatusFrom e).getD 500) "ai_sdk.error" (errName e) (errMessage e) none))
    (h16 : instanceOf e SDKClass.loadAPIKeyError = false → instanceOf e SDKClass.noSuchModelError = false → instanceOf e SDKClass.unsupportedFunctionalityError = false → (instanceOf e SDKClass.typeValidationError || instanceOf e SDKClass.invalidPromptError) = false → (instanceOf e SDKClass.emptyResponseBodyError || instanceOf e SDKClass.invalidResponseDataError || instanceOf e SDKClass.jsonParseError) = false → instanceOf e SDKClass.noContentGeneratedError = false → instanceOf e SDKClass.apiCallError = false → hasName e ["InvalidToolInputError", "NoSuchToolError", "ToolCallRepairError"] = false → hasName e ["InvalidArgumentError", "InvalidDataContentError", "InvalidMessageRoleError", "MessageConversionError"] = false → hasName e ["InvalidStreamPartError"] = false → hasName e ["UnsupportedModelVersionError", "NoSuchProviderError"] = false → hasName e ["DownloadError", "MCPClientError"] = false → hasName e ["RetryError"] = false → matchesNetworkCode e = false → isAISDKError e = false → motive (NormalizedAIError.mk 500 "unknown" (errName e) (errMessage e) none)) :
    motive (normalizeAIError e) := by
  rcases Bool.eq_false_or_eq_true (instanceOf e SDKClass.loadAPIKeyError) with hc1 | hc1
  case inl =>
    have he : normalizeAIError e = (NormalizedAIError.mk 401 "auth.no_api_key" (errName e) "Missing or invalid API key" none) := by
      unfold normalizeAIError
      rw [if_pos hc1]
    rw [he]
    exact h1 hc1
  rcases Bool.eq_false_or_eq_true (instanceOf e SDKClass.noSuchModelError) with hc2 | hc2
  case inl =>
    have he : normalizeAIError e = (NormalizedAIError.mk 400 "model.not_found" (errName e) (errMessage e) none) := by
      unfold normalizeAIError
      rw [if_neg (ne_true_of_eq_false hc1), if_pos hc2]
    rw [he]
    exact h2 hc1 hc2
  rcases Bool.eq_false_or_eq_true (instanceOf e SDKClass.unsupportedFunctionalityError) with hc3 | hc3
  case inl =>
    have he : normalizeAIError e = (NormalizedAIError.mk 400 "model.unsupported_functionality" (errName e) (errMessage e) none) := by
      unfold normalizeAIError
      rw [if_neg (ne_true_of_eq_false hc1), if_neg (ne_true_of_eq_false hc2), if_pos hc3]
    rw [he]
    exact h3 hc1 hc2 hc3
  rcases Bool.eq_false_or_eq_true ((instanceOf e SDKClass.typeValidationError || instanceOf e SDKClass.invalidPromptError)) with hc4 | hc4
  case inl =>
    have he : normalizeAIError e = (NormalizedAIError.mk 400 "input.invalid" (errName e) (errMessage e) none) := by
      unfold normalizeAIError
      rw [if_neg (ne_true_of_eq_false hc1), if_neg (ne_true_of_eq_false hc2), if_neg (ne_true_of_eq_false hc3), if_pos hc4]
    rw [he]
    exact h4 hc1 hc2 hc3 hc4
  rcases Bool.eq_false_or_eq_true ((instanceOf e SDKClass.emptyResponseBodyError || instanceOf e SDKClass.invalidResponseDataError || instanceOf e SDKClass.jsonParseError)) with hc5 | hc5
  case inl =>
    have he : normalizeAIError e = (NormalizedAIError.mk 502 "provider.invalid_response" (errName e) (errMessage e) none) := by
      unfold normalizeAIError
      rw [if_neg (ne_true_of_eq_false hc1), if_neg (ne_true_of_eq_false hc2), if_neg (ne_true_of_eq_false hc3), if_neg (ne_true_of_eq_false hc4), if_pos hc5]
    rw [he]
    exact h5 hc1 hc2 hc3 hc4 hc5
  rcases Bool.eq_false_or_eq_true (instanceOf e SDKClass.noContentGeneratedError) with hc6 | hc6
  case inl =>
    have he : normalizeAIError e = (NormalizedAIError.mk 502 "provider.no_output" (errName e) (errMessage e) none) := by
      unfold normalizeAIError
      rw [if_neg (ne_true_of_eq_false hc1), if_neg (ne_true_of_eq_false hc2), if_neg (ne_true_of_eq_false hc3), if_neg (ne_true_of_eq_false hc4), if_neg (ne_true_of_eq_false hc5), if_pos hc6]
    rw [he]
    exact h6 hc1 hc2 hc3 hc4 hc5 hc6
  rcases Bool.eq_false_or_eq_true (instanceOf e SDKClass.apiCallError) with hc7 | hc7
  case inl =>
    have he : normalizeAIError e = (NormalizedAIError.mk ((readStatusFrom e).getD 502) (apiCallCode ((readStatusFrom e).getD 502)) (errName e) (errMessage e) none) := by
      unfold normalizeAIError
      rw [if_neg (ne_true_of_eq_false hc1), if_neg (ne_true_of_eq_false hc2), if_neg (ne_true_of_eq_false hc3), if_neg (ne_true_of_eq_false hc4), if_neg (ne_true_of_eq_false hc5), if_neg (ne_true_of_eq_false hc6), if_pos hc7]
    rw [he]
    exact h7 hc1 hc2 hc3 hc4 hc5 hc6 hc7
  rcases Bool.eq_false_or_eq_true (hasName e ["InvalidToolInputError", "NoSuchToolError", "ToolCallRepairError"]) with hc8 | hc8
  case inl =>
    have he : normalizeAIError e = (NormalizedAIError.mk 400 "tool.invalid" (errName e) (errMessage e) none) := by
      unfold normalizeAIError
      rw [if_neg (ne_true_of_eq_false hc1), if_neg (ne_true_of_eq_false hc2), if_neg (ne_true_of_eq_false hc3), if_neg (ne_true_of_eq_false hc4), if_neg (ne_true_of_eq_false hc5), if_neg (ne_true_of_eq_false hc6), if_neg (ne_true_of_eq_false hc7), if_pos hc8]
    rw [he]
    exact h8 hc1 hc2 hc3 hc4 hc5 hc6 hc7 hc8
  rcases Bool.eq_false_or_eq_true (hasName e ["InvalidArgumentError", "InvalidDataContentError", "InvalidMessageRoleError", "MessageConversionError"]) with hc9 | hc9
  case inl =>
    have he : normalizeAIError e = (NormalizedAIError.mk 400 "input.invalid" (errName e) (errMessage e) none) := by
      unfold normalizeAIError
      rw [if_neg (ne_true_of_eq_false hc1), if_neg (ne_true_of_eq_false hc2), if_neg (ne_true_of_eq_false hc3), if_neg (ne_true_of_eq_false hc4), if_neg (ne_true_of_eq_false hc5), if_neg (ne_true_of_eq_false hc6), if_neg (ne_true_of_eq_false hc7), if_neg (ne_true_of_eq_false hc8), if_pos hc9]
    rw [he]
    exact h9 hc1 hc2 hc3 hc4 hc5 hc6 hc7 hc8 hc9
  rcases Bool.eq_false_or_eq_true (hasName e ["InvalidStreamPartError"]) with hc10 | hc10
  case inl =>
    have he : normalizeAIError e = (NormalizedAIError.mk 502 "stream.invalid_part" (errName e) (errMessage e) none) := by
      unfold normalizeAIError
      rw [if_neg (ne_true_of_eq_false hc1), if_neg (ne_true_of_eq_false hc2), if_neg (ne_true_of_eq_false hc3), if_neg (ne_true_of_eq_false hc4), if_neg (ne_true_of_eq_false hc5), if_neg (ne_true_of_eq_false hc6), if_neg (ne_true_of_eq_false hc7), if_neg (ne_true_of_eq_false hc8), if_neg (ne_true_of_eq_false hc9), if_pos hc10]
    rw [he]
    exact h10 hc1 hc2 hc3 hc4 hc5 hc6 hc7 hc8 hc9 hc10
  rcases Bool.eq_false_or_eq_true (hasName e ["UnsupportedModelVersionError", "NoSuchProviderError"]) with hc11 | hc11
  case inl =>
    have he : normalizeAIError e = (NormalizedAIError.mk 400 "model.unsupported" (errName e) (errMessage e) none) := by
      unfold normalizeAIError
      rw [if_neg (ne_true_of_eq_false hc1), if_neg (ne_true_of_eq_false hc2), if_neg (ne_true_of_eq_false hc3), if_neg (ne_true_of_eq_false hc4), if_neg (ne_true_of_eq_false hc5), if_neg (ne_true_of_eq_false hc6), if_neg (ne_true_of_eq_false hc7), if_neg (ne_true_of_eq_false hc8), if_neg (ne_true_of_eq_false hc9), if_neg (ne_true_of_eq_false hc10), if_pos hc11]
    rw [he]
    exact h11 hc1 hc2 hc3 hc4 hc5 hc6 hc7 hc8 hc9 hc10 hc11
  rcases Bool.eq_false_or_eq_true (hasName e ["DownloadError", "MCPClientError"]) with hc12 | hc12
  case inl =>
    have he : normalizeAIError e = (NormalizedAIError.mk 502 "provider.network_error" (errName e) (errMessage e) none) := by
      unfold normalizeAIError
      rw [if_neg (ne_true_of_eq_false hc1), if_neg (ne_true_of_eq_false hc2), if_neg (ne_true_of_eq_false hc3), if_neg (ne_true_of_eq_false hc4), if_neg (ne_true_of_eq_false hc5), if_neg (ne_true_of_eq_false hc6), if_neg (ne_true_of_eq_false hc7), if_neg (ne_true_of_eq_false hc8), if_neg (ne_true_of_eq_false hc9), if_neg (ne_true_of_eq_false hc10), if_neg (ne_true_of_eq_false hc11), if_pos hc12]
    rw [he]
    exact h12 hc1 hc2 hc3 hc4 hc5 hc6 hc7 hc8 hc9 hc10 hc11 hc12
  rcases Bool.eq_false_or_eq_true (hasName e ["RetryError"]) with hc13 | hc13
  case inl =>
    have he : normalizeAIError e = (NormalizedAIError.mk ((readStatusFrom e).getD 503) "provider.retry" (errName e) (errMessage e) none) := by
      unfold normalizeAIError
      rw [if_neg (ne_true_of_eq_false hc1), if_neg (ne_true_of_eq_false hc2), if_neg (ne_true_of_eq_false hc3), if_neg (ne_true_of_eq_false hc4), if_neg (ne_true_of_eq_false hc5), if_neg (ne_true_of_eq_false hc6), if_neg (ne_true_of_eq_false hc7), if_neg (ne_true_of_eq_false hc8), if_neg (ne_true_of_eq_false hc9), if_neg (ne_true_of_eq_false hc10), if_neg (ne_true_of_eq_false hc11), if_neg (ne_true_of_eq_false hc12), if_pos hc13]
    rw [he]
    exact h13 hc1 hc2 hc3 hc4 hc5 hc6 hc7 hc8 hc9 hc10 hc11 hc12 hc13
  rcases Bool.eq_false_or_eq_true (matchesNetworkCode e) with hc14 | hc14
  case inl =>
    have he : normalizeAIError e = (NormalizedAIError.mk 502 ("network." ++ jsToLower (stringCodeOf e)) (errName e) (errMessage e) none) := by
      unfold normalizeAIError
      rw [if_neg (ne_true_of_eq_false hc1), if_neg (ne_true_of_eq_false hc2), if_neg (ne_true_of_eq_false hc3), if_neg (ne_true_of_eq_false hc4), if_neg (ne_true_of_eq_false hc5), if_neg (ne_true_of_eq_false hc6), if_neg (ne_true_of_eq_false hc7), if_neg (ne_true_of_eq_false hc8), if_neg (ne_true_of_eq_false hc9), if_neg (ne_true_of_eq_false hc10), if_neg (ne_true_of_eq_false hc11), if_neg (ne_true_of_eq_false hc12), if_neg (ne_true_of_eq_false hc13), if_pos hc14]
    rw [he]
    exact h14 hc1 hc2 hc3 hc4 hc5 hc6 hc7 hc8 hc9 hc10 hc11 hc12 hc13 hc14
  rcases Bool.eq_false_or_eq_true (isAISDKError e) with hc15 | hc15
  case inl =>
    have he : normalizeAIError e = (NormalizedAIError.mk ((readStatusFrom e).getD 500) "ai_sdk.error" (errName e) (errMessage e) none) := by
      unfold normalizeAIError
      rw [if_neg (ne_true_of_eq_false hc1), if_neg (ne_true_of_eq_false hc2), if_neg (ne_true_of_eq_false hc3), if_neg (ne_true_of_eq_false hc4), if_neg (ne_true_of_eq_false hc5), if_neg (ne_true_of_eq_false hc6), if_neg (ne_true_of_eq_false hc7), if_neg (ne_true_of_eq_false hc8), if_neg (ne_true_of_eq_false hc9), if_neg (ne_true_of_eq_false hc10), if_neg (ne_true_of_eq_false hc11), if_neg (ne_true_of_eq_false hc12), if_neg (ne_true_of_eq_false hc13), if_neg (ne_true_of_eq_false hc14), if_pos hc15]
    rw [he]
    exact h15 hc1 hc2 hc3 hc4 hc5 hc6 hc7 hc8 hc9 hc10 hc11 hc12 hc13 hc14 hc15
  have he : normalizeAIError e = (NormalizedAIError.mk 500 "unknown" (errName e) (errMessage e) none) := by
    unfold normalizeAIError
    rw [if_neg (ne_true_of_eq_false hc1), if_neg (ne_true_of_eq_false hc2), if_neg (ne_true_of_eq_false hc3), if_neg (ne_true_of_eq_false hc4), if_neg (ne_true_of_eq_false hc5), if_neg (ne_true_of_eq_false hc6), if_neg (ne_true_of_eq_false hc7), if_neg (ne_true_of_eq_false hc8), if_neg (ne_true_of_eq_false hc9), if_neg (ne_true_of_eq_false hc10), if_neg (ne_true_of_eq_false hc11), if_neg (ne_true_of_eq_false hc12), if_neg (ne_true_of_eq_false hc13), if_neg (ne_true_of_eq_false hc14), if_neg (ne_true_of_eq_false hc15)]
  rw [he]
  exact h16 hc1 hc2 hc3 hc4 hc5 hc6 hc7 hc8 hc9 hc10 hc11 hc12 hc13 hc14 hc15

/-- Helper: negated Bool equation for rewriting a matched condition. -/
theorem bnot_eq_true (b : Bool) : ((!b) = true) = (b = false) := by
  cases b <;> simp

/-- C1: the classifier is total over all JavaScript values and, when no
classification rule matches the input, returns the default record with
status 500, code unknown, and the defensively extracted name and
message. -/
theorem normalize_totality_default (e : JSValue) (h : matchesNoRule e = true) :
    normalizeAIError e = ⟨500, "unknown", errName e, errMessage e, none⟩ := by
  simp only [matchesNoRule, Bool.and_eq_true, bnot_eq_true] at h
  obtain ⟨⟨⟨⟨⟨⟨⟨hsdk, htool⟩, hinput⟩, hstream⟩, hmodel⟩, hdl⟩, hretry⟩, hnet⟩ := h
  refine normalizeAIError_cases e
    (motive := fun r => r = ⟨500, "unknown", errName e, errMessage e, none⟩)
    ?_ ?_ ?_ ?_ ?_ ?_ ?_ ?_ ?_ ?_ ?_ ?_ ?_ ?_ ?_ ?_
  · intro hc
    simp [sdk_no_instance hsdk] at hc
  · intro _ hc
    simp [sdk_no_instance hsdk] at hc
  · intro _ _ hc
    simp [sdk_no_instance hsdk] at hc
  · intro _ _ _ hc
    simp [sdk_no_instance hsdk] at hc
  · intro _ _ _ _ hc
    simp [sdk_no_instance hsdk] at hc
  · intro _ _ _ _ _ hc
    simp [sdk_no_instance hsdk] at hc
  · intro _ _ _ _ _ _ hc
    simp [sdk_no_instance hsdk] at hc
  · intro _ _ _ _ _ _ _ hc
    simp [htool] at hc
  · intro _ _ _ _ _ _ _ _ hc
    simp [hinput] at hc
  · intro _ _ _ _ _ _ _ _ _ hc
    simp [hstream] at hc
  · intro _ _ _ _ _ _ _ _ _ _ hc
    simp [hmodel] at hc
  · intro _ _ _ _ _ _ _ _ _ _ _ hc
    simp [hdl] at hc
  · intro _ _ _ _ _ _ _ _ _ _ _ _ hc
    simp [hretry] at hc
  · intro _ _ _ _ _ _ _ _ _ _ _ _ _ hc
    simp [hnet] at hc
  · intro _ _ _ _ _ _ _ _ _ _ _ _ _ _ hc
    simp [hsdk] at hc
  · intros
    rfl

/-- C1 witness: null matches no rule and is classified as the default
unknown record with status 500. -/
theorem normalize_totality_default_witness :
    matchesNoRule JSValue.null = true
    ∧ normalizeAIError JSValue.null
        = ⟨500, "unknown", "Error", "Unexpected error", none⟩ :=
  ⟨rfl, normalize_totality_default JSValue.null rfl⟩

/-- C2 counterexample: an APICallError instance carrying status 418 is
normalized to status 418, which is outside the fixed status set, so the
status member is not always in that set. -/
theorem status_escapes_fixed_set :
    ¬ ((normalizeAIError (.obj (some .apiCallError) [("status", .num 418)])).status
        ∈ statusFixedSet) := by
  intro h
  rw [show (normalizeAIError (.obj (some .apiCallError) [("status", .num 418)])).status
      = 418 from rfl] at h
  revert h
  decide

/-- C2 amended: for every input value, the status of the normalized
error is either in the fixed status set or is exactly the numeric
status the error itself carries via status, statusCode, or
response.status; the APICallError, RetryError, and AISDKError branches
return the extracted number verbatim, which may lie outside the set. -/
theorem status_in_set_or_extracted (e : JSValue) :
    (normalizeAIError e).status ∈ statusFixedSet
      ∨ readStatusFrom e = some (normalizeAIError e).status := by
  refine normalizeAIError_cases e
    (motive := fun r => r.status ∈ statusFixedSet ∨ readStatusFrom e = some r.status)
    ?_ ?_ ?_ ?_ ?_ ?_ ?_ ?_ ?_ ?_ ?_ ?_ ?_ ?_ ?_ ?_ <;>
    intros <;>
    first
      | (left; simp [statusFixedSet]; done)
      | (rcases readStatusFrom e with _ | n <;>
          first
            | (left; simp [statusFixedSet]; done)
            | (right; rfl))

/-- C3 counterexample: the plain object whose only field is the name
LoadAPIKeyError is not classified as an auth.no_api_key error with
status 401. -/
theorem plain_load_api_key_not_auth :
    ¬ ((normalizeAIError (.obj none [("name", .str "LoadAPIKeyError")])).status = 401
        ∧ (normalizeAIError (.obj none [("name", .str "LoadAPIKeyError")])).code
            = "auth.no_api_key") := by
  intro h
  have hc := h.2
  rw [show (normalizeAIError (.obj none [("name", .str "LoadAPIKeyError")])).code
      = "unknown" from rfl] at hc
  exact absurd hc (by decide)

/-- C3 amended: only a genuine LoadAPIKeyError instance is classified
with status 401 and code auth.no_api_key; the plain object carrying
only the name LoadAPIKeyError matches no rule (that name is in no name
list) and falls through to status 500 with code unknown. -/
theorem load_api_key_classification :
    (∀ fields : List (String × JSValue),
        normalizeAIError (.obj (some .loadAPIKeyError) fields)
          = ⟨401, "auth.no_api_key", errName (.obj (some .loadAPIKeyError) fields),
              "Missing or invalid API key", none⟩)
      ∧ normalizeAIError (.obj none [("name", .str "LoadAPIKeyError")])
          = ⟨500, "unknown", "LoadAPIKeyError", "Unexpected error", none⟩ := by
  constructor
  · intro fields
    rfl
  · rfl

/-- C4 counterexample: a LoadAPIKeyError instance whose message
property is the string boom is normalized with the fixed replacement
message, not with its original message, so the message is not preserved
in every branch. -/
theorem message_not_always_preserved :
    getProp (.obj (some .loadAPIKeyError) [("message", .str "boom")]) "message"
        = some (.str "boom")
      ∧ (normalizeAIError (.obj (some .loadAPIKeyError) [("message", .str "boom")])).message
          ≠ "boom" := by
  constructor
  · rfl
  · intro h
    rw [show (normalizeAIError
        (.obj (some .loadAPIKeyError) [("message", .str "boom")])).message
        = "Missing or invalid API key" from rfl] at h
    exact absurd h (by decide)

/-- C4 amended: the message of the normalized error is the defensively
extracted input message (the message property when present and a
string, else the default) in every branch except the LoadAPIKeyError
branch, which replaces it with a fixed string. -/
theorem message_preserved_except_load_api_key (e : JSValue) :
    (normalizeAIError e).message
      = if instanceOf e SDKClass.loadAPIKeyError then "Missing or invalid API key"
        else errMessage e := by
  refine normalizeAIError_cases e
    (motive := fun r => r.message
      = if instanceOf e SDKClass.loadAPIKeyError then "Missing or invalid API key"
        else errMessage e)
    ?_ ?_ ?_ ?_ ?_ ?_ ?_ ?_ ?_ ?_ ?_ ?_ ?_ ?_ ?_ ?_
  · intro hc
    rw [if_pos hc]
  all_goals
    intro hc
    intros
    rw [if_neg (ne_true_of_eq_false hc)]

/-- C5: for every APICallError instance the returned status is the
extracted status (default 502 when absent) and the returned code is the
sub-mapping of that status; the sub-mapping sends 401, 403, 404, 409,
422, 429 to their codes, any status of at least 500 to provider.error,
and every other status to provider.request_failed. -/
theorem api_call_status_code_mapping (e : JSValue)
    (h : instanceOf e SDKClass.apiCallError = true) :
    (normalizeAIError e).status = (readStatusFrom e).getD 502
    ∧ (normalizeAIError e).code = apiCallCode ((readStatusFrom e).getD 502)
    ∧ apiCallCode 401 = "auth.unauthorized"
    ∧ apiCallCode 403 = "auth.forbidden"
    ∧ apiCallCode 404 = "provider.not_found"
    ∧ apiCallCode 409 = "provider.conflict"
    ∧ apiCallCode 422 = "provider.unprocessable"
    ∧ apiCallCode 429 = "provider.rate_limited"
    ∧ (∀ s : Int, 500 ≤ s → apiCallCode s = "provider.error")
    ∧ (∀ s : Int, s < 500 → s ≠ 401 → s ≠ 403 → s ≠ 404 → s ≠ 409 → s ≠ 422 →
        s ≠ 429 → apiCallCode s = "provider.request_failed") := by
  rcases e with _ | _ | b | n | s | ⟨cls, fs⟩ <;> try exact Bool.noConfusion h
  rcases cls with _ | t
  · exact Bool.noConfusion h
  · have ht : t = SDKClass.apiCallError := by
      simpa [instanceOf] using h
    subst ht
    refine ⟨rfl, rfl, by decide, by decide, by decide, by decide, by decide,
      by decide, ?_, ?_⟩
    · intro s hs
      unfold apiCallCode
      split_ifs <;> first | rfl | omega
    · intro s hlt h401 h403 h404 h409 h422 h429
      unfold apiCallCode
      split_ifs <;> first | rfl | omega

/-- C5 witness: an APICallError instance with status 418 is returned
with status 418 and the unmapped-status code provider.request_failed. -/
theorem api_call_status_code_mapping_witness :
    (normalizeAIError (.obj (some .apiCallError) [("status", .num 418)])).status = 418
    ∧ (normalizeAIError (.obj (some .apiCallError) [("status", .num 418)])).code
        = "provider.request_failed" := by
  have h := api_call_status_code_mapping
    (.obj (some .apiCallError) [("status", .num 418)]) rfl
  exact ⟨h.1.trans rfl, h.2.1.trans rfl⟩

/-- C6: the source status extractor agrees everywhere with the priority
composition the spec describes (numeric status field first, else
numeric statusCode, else numeric response.status, else nothing); an
object with both status 500 and statusCode 404 reads as 500, and a
non-numeric status is skipped in favor of the numeric statusCode. -/
theorem status_extraction_priority (e : JSValue) :
    readStatusFrom e = statusPriorityRead e
    ∧ readStatusFrom (.obj none [("status", .num 500), ("statusCode", .num 404)])
        = some 500
    ∧ readStatusFrom (.obj none [("status", .str "bad"), ("statusCode", .num 404)])
        = some 404 := by
  refine ⟨?_, rfl, rfl⟩
  unfold readStatusFrom statusPriorityRead getNumProp
  rcases getProp e "status" with _ | (_ | _ | b1 | n1 | s1 | ⟨c1, f1⟩) <;>
    rcases getProp e "statusCode" with _ | (_ | _ | b2 | n2 | s2 | ⟨c2, f2⟩) <;>
      try rfl
  all_goals
    rcases getProp e "response" with _ | r <;> rfl

/-- C7: first match wins in rule order: a plain object named RetryError
is classified provider.retry with status from the object (default 503)
even when it also carries a network code field, because the RetryError
rule precedes the generic code check; a plain object with only the code
ETIMEDOUT is classified 502 network.etimedout. -/
theorem retry_rule_precedes_network (fields : List (String × JSValue))
    (h : getProp (.obj none fields) "name" = some (.str "RetryError")) :
    normalizeAIError (.obj none fields)
      = ⟨(readStatusFrom (.obj none fields)).getD 503, "provider.retry", "RetryError",
          errMessage (.obj none fields), none⟩
    ∧ normalizeAIError (.obj none [("code", .str "ETIMEDOUT")])
      = ⟨502, "network.etimedout", "Error", "Unexpected error", none⟩ := by
  have hname : ∀ names : List String,
      hasName (.obj none fields) names = names.contains "RetryError" := by
    intro names
    unfold hasName
    rw [h]
    rfl
  refine ⟨?_, rfl⟩
  refine normalizeAIError_cases (.obj none fields)
    (motive := fun r => r
      = ⟨(readStatusFrom (.obj none fields)).getD 503, "provider.retry", "RetryError",
          errMessage (.obj none fields), none⟩)
    ?_ ?_ ?_ ?_ ?_ ?_ ?_ ?_ ?_ ?_ ?_ ?_ ?_ ?_ ?_ ?_
  · intro hc
    exact Bool.noConfusion hc
  · intro _ hc
    exact Bool.noConfusion hc
  · intro _ _ hc
    exact Bool.noConfusion hc
  · intro _ _ _ hc
    exact Bool.noConfusion hc
  · intro _ _ _ _ hc
    exact Bool.noConfusion hc
  · intro _ _ _ _ _ hc
    exact Bool.noConfusion hc
  · intro _ _ _ _ _ _ hc
    exact Bool.noConfusion hc
  · intro _ _ _ _ _ _ _ hc
    rw [hname] at hc
    exact absurd hc (by decide)
  · intro _ _ _ _ _ _ _ _ hc
    rw [hname] at hc
    exact absurd hc (by decide)
  · intro _ _ _ _ _ _ _ _ _ hc
    rw [hname] at hc
    exact absurd hc (by decide)
  · intro _ _ _ _ _ _ _ _ _ _ hc
    rw [hname] at hc
    exact absurd hc (by decide)
  · intro _ _ _ _ _ _ _ _ _ _ _ hc
    rw [hname] at hc
    exact absurd hc (by decide)
  · intro _ _ _ _ _ _ _ _ _ _ _ _ _hc
    have hn : errName (.obj none fields) = "RetryError" := by
      unfold errName
      rw [h]
      rfl
    rw [hn]
  · intro _ _ _ _ _ _ _ _ _ _ _ _ hc13 _
    rw [hname] at hc13
    exact absurd hc13 (by decide)
  · intro _ _ _ _ _ _ _ _ _ _ _ _ hc13 _ _
    rw [hname] at hc13
    exact absurd hc13 (by decide)
  · intro _ _ _ _ _ _ _ _ _ _ _ _ hc13 _ _
    rw [hname] at hc13
    exact absurd hc13 (by decide)

/-- C7 witness: the object with name RetryError and code ETIMEDOUT is
classified provider.retry with the default 503, not as a network
error. -/
theorem retry_rule_precedes_network_witness :
    normalizeAIError (.obj none [("name", .str "RetryError"), ("code", .str "ETIMEDOUT")])
      = ⟨503, "provider.retry", "RetryError", "Unexpected error", none⟩ := by
  have h := (retry_rule_precedes_network
    [("name", .str "RetryError"), ("code", .str "ETIMEDOUT")] rfl).1
  exact h.trans rfl

/-- Helper for C8: the friendly decision chain only ever yields one of
the eight fixed strings. -/
theorem friendlyFromCode_mem (code : String) :
    friendlyFromCode code ∈ friendlyMessages := by
  unfold friendlyFromCode
  split_ifs <;> decide

/-- C8: getStreamFriendlyMessage is total and always returns one of the
eight fixed strings; the object named RetryError normalizes to the code
provider.retry, which matches no listed prefix or exact value and so
yields the generic fallback string. -/
theorem friendly_message_total (e : JSValue) :
    getStreamFriendlyMessage e ∈ friendlyMessages
    ∧ getStreamFriendlyMessage (.obj none [("name", .str "RetryError")])
        = "Something went wrong. Please try again." :=
  ⟨friendlyFromCode_mem (normalizeAIError e).code, rfl⟩

/-- C9: the reporter returns normally for every transport behavior, the
log entry is the first emitted action (before any write attempt), the
json write is attempted exactly once, and the fallback raw write is
attempted exactly once when the json write throws and never
otherwise. -/
theorem reporter_never_throws (res : Transport) (e : JSValue) :
    (handleAIError res e).2 = Except.ok ()
    ∧ ((handleAIError res e).1.head?.map Event.isLogged) = some true
    ∧ (handleAIError res e).1.countP Event.isJsonAttempt = 1
    ∧ (handleAIError res e).1.countP Event.isRawAttempt
        = (match res.jsonResult with
           | .ok _ => 0
           | .error _ => 1) := by
  rcases res with ⟨jr, er⟩
  rcases jr with _ | _ <;> rcases er with _ | _ <;>
    exact ⟨rfl, rfl, rfl, rfl⟩

/-- C10: for every input value, the NormalizedError returned by
normalizeAIError has no retryAfterMs member: no classification rule
ever populates the optional retryAfterMs member of the result. -/
theorem retryAfterMs_never_populated (e : JSValue) :
    (normalizeAIError e).retryAfterMs = none := by
  unfold normalizeAIError
  simp only [apply_ite (fun r : NormalizedAIError => r.retryAfterMs), ite_self]

end Shippa
